import Mathlib

/-!
Shallow embedding of the paced Kafka order pipeline:
`src/producer.py`, `src/producer_invalid.py` (producer side) and
`src/tracker.py` (consumer side).

Modelling conventions:
* Python floats and wall-clock times are modelled as rationals (`ℚ`);
  no claim here depends on binary floating-point rounding.
* Python `dict`s produced by `json.loads` / consumed by `json.dumps` are
  association lists with unique keys, in insertion order (`JObj`).
* Wall-clock time is idealized: `time.sleep(d)` advances the clock by
  exactly `d`, every other operation is instantaneous; a blocking
  `producer.poll(0.1)` call consumes an environment-chosen amount of time.
* The broker client is the environment: each loop iteration's `produce`
  call either is accepted into the local buffer or raises `BufferError`,
  and each `poll`/`flush` call fires an environment-chosen list of
  delivery callbacks (FIFO over the in-flight queue).
* `print` calls and the periodic report block are pure I/O: they read the
  metrics but mutate none of the state modelled here (the `last_report`
  timestamp only gates printing), so they are omitted.
-/

/-- JSON-like values as produced by `json.loads`. Python booleans are kept
as a distinct constructor; note that Python's `isinstance(x, int)` also
accepts `bool` values, since `bool` is a subclass of `int`. -/
inductive JValue where
  | jint (n : Int)
  | jnum (q : ℚ)
  | jstr (s : String)
  | jbool (b : Bool)
  | jnull
  deriving DecidableEq

/-- A decoded JSON object: association list in insertion order, unique keys. -/
abbrev JObj := List (String × JValue)

/-- `d.get(k)`: first binding of key `k`, `none` when absent. -/
def jget : JObj → String → Option JValue
  | [], _ => none
  | (k1, v) :: rest, k => if k1 = k then some v else jget rest k

/-- `d.pop(k, None)`: remove the binding of key `k` (keys are unique). -/
def popKey (o : JObj) (k : String) : JObj :=
  o.filter (fun p => p.1 != k)

/-- `d[k] = v`: replace in place when the key exists, else append. -/
def setKey : JObj → String → JValue → JObj
  | [], k, v => [(k, v)]
  | (k1, v1) :: rest, k, v =>
      if k1 = k then (k, v) :: rest else (k1, v1) :: setKey rest k v

/-- `WEEKDAYS` from `producer.py`. -/
def WEEKDAYS : List String :=
  ["Monday", "Tuesday", "Wednesday", "Thursday", "Friday", "Saturday", "Sunday"]

/-- `INVALID_MODES` from `producer_invalid.py`. -/
def INVALID_MODES : List String :=
  ["missing_unit_price", "missing_quantity", "missing_both",
   "non_positive_unit_price", "non_positive_quantity"]

/-- Idealized `round(x, 2)` on the rational model of floats. -/
def round2 (q : ℚ) : ℚ := (⌊q * 100 + 1 / 2⌋ : ℚ) / 100

/-- The random / faker / datetime draws one `create_order()` call consumes.
The string-rendered purchase timestamps and the weekday and hour of the
drawn purchase datetime are taken as inputs (they come from the external
`datetime` and `faker` collaborators); the remaining fields are computed
exactly as in `create_order`. -/
structure OrderDraws where
  order_id : String
  user : String
  item : String
  category : String
  quantity : Int
  unit_price : ℚ
  discount_pct : Int
  payment_method : String
  sales_channel : String
  store_city : String
  purchase_datetime : String
  purchase_date : String
  purchase_time : String
  weekday_num : Int
  hour_of_day : Int
  now_ms : Int

/-- `create_order()` from `producer.py`: the returned dict, literally, in
source key order, with the random draws supplied by `d`. -/
def create_order (d : OrderDraws) : JObj :=
  [("order_id", .jstr d.order_id),
   ("user", .jstr d.user),
   ("item", .jstr d.item),
   ("category", .jstr d.category),
   ("quantity", .jint d.quantity),
   ("unit_price", .jnum d.unit_price),
   ("discount_pct", .jint d.discount_pct),
   ("total_amount",
     .jnum (round2 ((d.quantity : ℚ) * d.unit_price * (1 - (d.discount_pct : ℚ) / 100)))),
   ("payment_method", .jstr d.payment_method),
   ("sales_channel", .jstr d.sales_channel),
   ("store_city", .jstr d.store_city),
   ("purchase_datetime", .jstr d.purchase_datetime),
   ("purchase_date", .jstr d.purchase_date),
   ("purchase_time", .jstr d.purchase_time),
   ("weekday_name", .jstr (WEEKDAYS.getD d.weekday_num.toNat "")),
   ("weekday_num", .jint d.weekday_num),
   ("hour_of_day", .jint d.hour_of_day),
   ("is_weekend", .jbool (decide (5 ≤ d.weekday_num))),
   ("event_time_ms", .jint d.now_ms)]

/-- `create_invalid_order(mode)` from `producer_invalid.py`. `rand_pick`
is the value `random.choice(INVALID_MODES)` would return; it is consulted
only when `mode = "random"`. -/
def create_invalid_order (mode : String) (rand_pick : String) (d : OrderDraws) : JObj :=
  let order := create_order d
  let selected_mode := if mode = "random" then rand_pick else mode
  let order :=
    if selected_mode = "missing_unit_price" then popKey order "unit_price"
    else if selected_mode = "missing_quantity" then popKey order "quantity"
    else if selected_mode = "missing_both" then popKey (popKey order "unit_price") "quantity"
    else if selected_mode = "non_positive_unit_price" then setKey order "unit_price" (.jnum 0)
    else if selected_mode = "non_positive_quantity" then setKey order "quantity" (.jint 0)
    else order
  setKey order "invalid_mode" (.jstr selected_mode)

/-! ## Consumer (`src/tracker.py`) -/

/-- The consumer-side `Metrics` dataclass. -/
structure ConsumerMetrics where
  processed : Nat := 0
  errors : Nat := 0
  latency_total_ms : ℚ := 0
  deriving DecidableEq

/-- Consumer loop state: the metrics plus the count of synchronous
`consumer.commit(asynchronous=False)` calls issued so far. -/
structure ConsumerState where
  metrics : ConsumerMetrics
  commits : Nat
  deriving DecidableEq

/-- One outcome of `consumer.poll(1.0)`: timeout (`msg is None`), a
broker-level error object (`msg.error()` truthy), or a message whose
value either decodes and parses to a JSON object (`some obj`) or raises
during `decode`/`json.loads` (`none`). -/
inductive PollOutcome where
  | timeout
  | pollError
  | message (decoded : Option JObj)
  deriving DecidableEq

/-- `isinstance(x, int)` on a decoded JSON value: true for integers and
for booleans (`bool` subclasses `int` in Python). -/
def isPyInt : JValue → Bool
  | .jint _ => true
  | .jbool _ => true
  | _ => false

/-- Numeric value Python uses when an `isinstance(·, int)` value is used
in arithmetic (`True == 1`, `False == 0`). -/
def pyIntVal : JValue → Int
  | .jint n => n
  | .jbool b => if b then 1 else 0
  | _ => 0

/-- The record `order` carries an `event_time_ms` field passing the
`isinstance(event_time_ms, int)` check of `tracker.py` line 65. -/
def hasWellTypedEventTime (o : JObj) : Bool :=
  match jget o "event_time_ms" with
  | some v => isPyInt v
  | none => false

/-- One iteration of the consumer's `while True` body (`tracker.py`
lines 46-91) on a single poll outcome. `now_ms` is `time.time() * 1000`
at the latency computation. The periodic report block only prints. -/
def consumeStep (commit_every : Int) (now_ms : ℚ) (s : ConsumerState) :
    PollOutcome → ConsumerState
  | .timeout => s
  | .pollError => { s with metrics.errors := s.metrics.errors + 1 }
  | .message none => { s with metrics.errors := s.metrics.errors + 1 }
  | .message (some order) =>
      let m1 : ConsumerMetrics :=
        { s.metrics with processed := s.metrics.processed + 1 }
      let m2 : ConsumerMetrics :=
        match jget order "event_time_ms" with
        | some v =>
            if isPyInt v then
              { m1 with latency_total_ms := m1.latency_total_ms + (now_ms - (pyIntVal v : ℚ)) }
            else m1
        | none => m1
      if 0 < commit_every ∧ (m2.processed : Int) % commit_every = 0 then
        { metrics := m2, commits := s.commits + 1 }
      else
        { metrics := m2, commits := s.commits }

/-- The consumer main loop over a finite trace of poll outcomes, each
paired with the wall-clock (ms) at which it is handled. The trace ending
models the `KeyboardInterrupt` / stop signal observed between iterations. -/
def consumeLoop (commit_every : Int) : ConsumerState → List (ℚ × PollOutcome) → ConsumerState
  | s, [] => s
  | s, (now_ms, r) :: rest => consumeLoop commit_every (consumeStep commit_every now_ms s r) rest

/-- Metrics start at zero, no commit has been issued. -/
def initialConsumerState : ConsumerState := { metrics := {}, commits := 0 }

/-- A full consumer run: the loop, then the final synchronous
`consumer.commit(asynchronous=False)` in the `finally` block — that call
is issued unconditionally (its own failure is swallowed). -/
def consumeRun (commit_every : Int) (inputs : List (ℚ × PollOutcome)) : ConsumerState :=
  let s := consumeLoop commit_every initialConsumerState inputs
  { s with commits := s.commits + 1 }

/-- The trace entry is a successfully decoded record (it increments
`processed`). -/
def isValidMsg : PollOutcome → Bool
  | .message (some _) => true
  | _ => false

/-- Number of poll outcomes in the trace that decode successfully. -/
def validCount (inputs : List (ℚ × PollOutcome)) : Nat :=
  inputs.countP (fun p => isValidMsg p.2)

/-! ## Producer (`src/producer.py`, identically `src/producer_invalid.py`) -/

/-- The producer-side `Metrics` dataclass. -/
structure ProducerMetrics where
  sent_ok : Nat := 0
  sent_error : Nat := 0
  ack_latency_total_ms : ℚ := 0
  deriving DecidableEq

/-- `delivery_report(err, msg, started_at)` from `producer.py` lines
126-133 (the variant in `producer_invalid.py` lines 100-107 is identical
up to the printed tag). `now` is `time.time()` at the callback. -/
def delivery_report (m : ProducerMetrics) (err : Option String) (started_at now : ℚ) :
    ProducerMetrics :=
  match err with
  | some _ => { m with sent_error := m.sent_error + 1 }
  | none =>
      { m with sent_ok := m.sent_ok + 1,
               ack_latency_total_ms := m.ack_latency_total_ms + (now - started_at) * 1000 }

/-- The CLI configuration consumed by the producer main loop. -/
structure ProdConfig where
  events_per_second : ℚ
  max_events : Int := 0
  duration_seconds : Int := 0
  start : ℚ := 0
  deriving DecidableEq

/-- Producer main-loop state. Events are identified by creation index:
the `k`-th call to `create_order()` yields event `k` (the payload content
is modelled separately by `create_order`; the loop claims depend only on
event identity and timing). `in_flight` is the client's queue of accepted
sends whose callback has not fired; `submit_log` records every accepted
`produce` call (event index, `produce_start`), never removed. -/
structure ProdState where
  time : ℚ
  next_send_time : ℚ
  produced : Nat
  events_created : Nat
  in_flight : List (Nat × ℚ)
  submit_log : List (Nat × ℚ)
  metrics : ProducerMetrics
  deriving DecidableEq

/-- Outcome of one `producer.produce(...)` call: accepted into the local
send buffer, or `BufferError` (local buffer full). -/
inductive ProduceOutcome where
  | accepted
  | bufferFull
  deriving DecidableEq

/-- Environment of one loop iteration: the produce outcome, the delivery
callbacks the client fires during this iteration's `poll` call (FIFO over
`in_flight`, `true` = delivered, `false` = failed), and the time a
blocking `producer.poll(0.1)` consumes on the `BufferError` path. -/
structure IterEnv where
  outcome : ProduceOutcome
  deliveries : List Bool := []
  poll_wait : ℚ := 0
  deriving DecidableEq

/-- Fire delivery callbacks: each pops the oldest in-flight send and runs
`delivery_report` with its captured `produce_start` and the current
clock. Callbacks mutate only the metrics and the in-flight queue. -/
def applyDeliveries (s : ProdState) : List Bool → ProdState
  | [] => s
  | ok :: rest =>
      match s.in_flight with
      | [] => s
      | (_, started) :: fl =>
          applyDeliveries
            { s with in_flight := fl,
                     metrics := delivery_report s.metrics
                       (if ok then none else some "delivery failed") started s.time }
            rest

/-- One iteration of the producer `while` body (`producer.py` lines
143-186), after the termination checks have passed: create and encode a
fresh event, attempt `produce`; on `BufferError` run `producer.poll(0.1)`
and `continue` (no pacer update); on acceptance count it, run
`producer.poll(0)`, advance the pacer deadline by `1/r`, and either sleep
until the deadline or reset the deadline to now. -/
def prodStep (cfg : ProdConfig) (s : ProdState) (e : IterEnv) : ProdState :=
  let event_idx := s.events_created
  let s1 : ProdState := { s with events_created := s.events_created + 1 }
  let produce_start := s1.time
  match e.outcome with
  | .bufferFull =>
      let s2 := applyDeliveries s1 e.deliveries
      { s2 with time := s2.time + e.poll_wait }
  | .accepted =>
      let s2 : ProdState :=
        { s1 with produced := s1.produced + 1,
                  in_flight := s1.in_flight ++ [(event_idx, produce_start)],
                  submit_log := s1.submit_log ++ [(event_idx, produce_start)] }
      let s3 := applyDeliveries s2 e.deliveries
      let nst := s3.next_send_time + 1 / cfg.events_per_second
      let sleep_for := nst - s3.time
      if 0 < sleep_for then { s3 with time := s3.time + sleep_for, next_send_time := nst }
      else { s3 with next_send_time := s3.time }

/-- The producer main loop over a finite environment script. Before each
iteration the loop's termination guards run (`duration_seconds`, then
`max_events`); the script ending models the signal-set `should_stop`
flag observed at the loop head. -/
def prodRun (cfg : ProdConfig) : ProdState → List IterEnv → ProdState
  | s, [] => s
  | s, e :: es =>
      if 0 < cfg.duration_seconds ∧ (cfg.duration_seconds : ℚ) ≤ s.time - cfg.start then s
      else if 0 < cfg.max_events ∧ cfg.max_events ≤ (s.produced : Int) then s
      else prodRun cfg (prodStep cfg s e) es

/-- State at `start = time.time()`: both the clock and `next_send_time`
are the run's start time; no event exists yet. -/
def prodInit (start : ℚ) : ProdState :=
  { time := start, next_send_time := start, produced := 0, events_created := 0,
    in_flight := [], submit_log := [], metrics := {} }

/-- `producer.flush(10)` then the summary's elapsed time: the flush fires
the environment-chosen remaining callbacks and consumes `flush_wait`
wall-clock time; the summary computes `max(time.time() - start, 0.001)`. -/
def prodFinish (cfg : ProdConfig) (s : ProdState) (flush_deliveries : List Bool)
    (flush_wait : ℚ) : ProdState × ℚ :=
  let s1 := applyDeliveries { s with time := s.time + flush_wait } flush_deliveries
  (s1, max (s1.time - cfg.start) (1 / 1000))

/-- A whole producer `main` run after startup: loop then flush/summary. -/
def prodMain (cfg : ProdConfig) (script : List IterEnv) (flush_deliveries : List Bool)
    (flush_wait : ℚ) : ProdState × ℚ :=
  prodFinish cfg (prodRun cfg (prodInit cfg.start) script) flush_deliveries flush_wait

/-! ## Producer startup (`producer.py` lines 113-118,
`producer_invalid.py` lines 87-92) -/

/-- The broker client, `Producer({"bootstrap.servers": ...})`. -/
structure BrokerClient where
  bootstrap_servers : String
  deriving DecidableEq

/-- Startup of `main()` in `producer.py`: the rate check runs before the
`Producer` client is constructed; an uncaught `ValueError` terminates the
process with a non-zero exit before any network activity. The `Except`
value is `ok` with the created client exactly when the check passes. -/
def producerStartup (events_per_second : ℚ) (bootstrap_servers : String) :
    Except String BrokerClient :=
  if events_per_second ≤ 0 then
    Except.error "--events-per-second must be greater than 0"
  else
    Except.ok { bootstrap_servers := bootstrap_servers }

/-- Startup of `main()` in `producer_invalid.py`: textually the same
check as `producerStartup`. -/
def producerInvalidStartup (events_per_second : ℚ) (bootstrap_servers : String) :
    Except String BrokerClient :=
  if events_per_second ≤ 0 then
    Except.error "--events-per-second must be greater than 0"
  else
    Except.ok { bootstrap_servers := bootstrap_servers }

/-- Process exit status of startup: an uncaught `ValueError` exits the
Python process with status 1; otherwise `main` proceeds (exit 0 path). -/
def startupExitCode (r : Except String BrokerClient) : Nat :=
  match r with
  | .error _ => 1
  | .ok _ => 0

/-! ## Named scenarios -/

/-- A successfully decoded record (the empty JSON object suffices for
commit-counting scenarios; its fields are not consulted). -/
def validRecord : ℚ × PollOutcome := (0, PollOutcome.message (some []))

/-- Seven valid records then the stop signal (trace end). -/
def sevenValidTrace : List (ℚ × PollOutcome) := List.replicate 7 validRecord

/-- An iteration in which the produce call is accepted and the client
fires no callback during `poll(0)`. -/
def acceptedQuiet : IterEnv := { outcome := .accepted }

/-- Producer configuration of the buffer-full scenario: rate 2 events/s,
`max_events` 5, no duration bound, run starting at time 0. -/
def bufferScenarioCfg : ProdConfig :=
  { events_per_second := 2, max_events := 5, duration_seconds := 0, start := 0 }

/-- Environment of the buffer-full scenario: the buffer reports full on
produce attempt 4 of 5 and frees on retry (every later attempt accepted);
the blocking `poll(0.1)` consumes its full 0.1 s. -/
def bufferScenarioScript : List IterEnv :=
  [acceptedQuiet, acceptedQuiet, acceptedQuiet,
   { outcome := .bufferFull, poll_wait := 1 / 10 },
   acceptedQuiet, acceptedQuiet, acceptedQuiet]

/-- The buffer-full scenario run: loop, then `flush` resolving all five
accepted sends successfully. -/
def bufferScenarioRun : ProdState :=
  (prodMain bufferScenarioCfg bufferScenarioScript (List.replicate 5 true) 0).1

/-- Configuration of a steady backpressure-free run: target rate `r`,
`max_events` `n`, no duration bound, starting at `t0`. -/
def steadyRunCfg (r t0 : ℚ) (n : Nat) : ProdConfig :=
  { events_per_second := r, max_events := (n : Int), duration_seconds := 0, start := t0 }

/-- A steady backpressure-free run of `n` events: every produce call is
accepted, no callback fires during the loop, and the final flush resolves
all `n` deliveries successfully and instantaneously. -/
def steadyRun (r t0 : ℚ) (n : Nat) : ProdState × ℚ :=
  prodMain (steadyRunCfg r t0 n) (List.replicate (n + 1) acceptedQuiet)
    (List.replicate n true) 0

/-- Loop state after `n` paced, accepted, backpressure-free iterations of
a run started at `t0` with target rate `r`: event `k` was submitted at
`t0 + k/r`, the clock and the pacer deadline stand at `t0 + n/r`, and no
callback has fired yet. -/
def pacedState (t0 r : ℚ) (n : Nat) : ProdState :=
  { time := t0 + n / r, next_send_time := t0 + n / r, produced := n, events_created := n,
    in_flight := (List.range n).map (fun k => (k, t0 + k / r)),
    submit_log := (List.range n).map (fun k => (k, t0 + k / r)),
    metrics := {} }

/-! ## Frame lemmas -/

theorem applyDeliveries_frame (ds : List Bool) : ∀ s : ProdState,
    (applyDeliveries s ds).time = s.time ∧
    (applyDeliveries s ds).next_send_time = s.next_send_time ∧
    (applyDeliveries s ds).produced = s.produced ∧
    (applyDeliveries s ds).events_created = s.events_created ∧
    (applyDeliveries s ds).submit_log = s.submit_log ∧
    (applyDeliveries s ds).in_flight.length ≤ s.in_flight.length := by
  induction ds with
  | nil => intro s; simp [applyDeliveries]
  | cons ok rest ih =>
      intro s
      cases h : s.in_flight with
      | nil => simp [applyDeliveries, h]
      | cons p fl =>
          obtain ⟨idx, started⟩ := p
          have hrec := ih
            { s with in_flight := fl,
                     metrics := delivery_report s.metrics
                       (if ok then none else some "delivery failed") started s.time }
          simp only [applyDeliveries, h] at hrec ⊢
          refine ⟨hrec.1, hrec.2.1, hrec.2.2.1, hrec.2.2.2.1, hrec.2.2.2.2.1, ?_⟩
          exact le_trans hrec.2.2.2.2.2 (by simp)

theorem consumeStep_processed (c : Int) (t : ℚ) (s : ConsumerState) (r : PollOutcome) :
    (consumeStep c t s r).metrics.processed =
      s.metrics.processed + (if isValidMsg r then 1 else 0) := by
  cases r with
  | timeout => simp [consumeStep, isValidMsg]
  | pollError => simp [consumeStep, isValidMsg]
  | message d =>
      cases d with
      | none => simp [consumeStep, isValidMsg]
      | some o =>
          simp only [consumeStep, isValidMsg, if_true]
          split
          all_goals split
          all_goals try split
          all_goals simp

theorem consumeStep_commits_valid (c : Int) (hc : 0 < c) (t : ℚ) (s : ConsumerState)
    (o : JObj) :
    (consumeStep c t s (.message (some o))).commits =
      s.commits + if ((s.metrics.processed + 1 : Nat) : Int) % c = 0 then 1 else 0 := by
  rcases hj : jget o "event_time_ms" with _ | v
  · simp only [consumeStep, hj, hc, true_and]
    split <;> simp [*]
  · by_cases hp : isPyInt v = true <;>
      (simp only [consumeStep, hj, hp, if_true, Bool.false_eq_true, if_false, hc, true_and];
        split <;> simp [*])

theorem consumeStep_commits_le0 (c : Int) (hc : c ≤ 0) (t : ℚ) (s : ConsumerState)
    (r : PollOutcome) : (consumeStep c t s r).commits = s.commits := by
  have hnc : ¬ (0 < c) := by omega
  cases r with
  | timeout => rfl
  | pollError => rfl
  | message d =>
      cases d with
      | none => rfl
      | some o => simp [consumeStep, hnc]

theorem consumeLoop_processed (c : Int) (inputs : List (ℚ × PollOutcome)) :
    ∀ s : ConsumerState,
      (consumeLoop c s inputs).metrics.processed = s.metrics.processed + validCount inputs := by
  induction inputs with
  | nil => intro s; simp [consumeLoop, validCount]
  | cons a rest ih =>
      intro s
      obtain ⟨t, r⟩ := a
      rw [consumeLoop, ih, consumeStep_processed]
      simp only [validCount, List.countP_cons] at *
      omega

theorem consumeLoop_commits_inv (c : Int) (hc : 0 < c) (inputs : List (ℚ × PollOutcome)) :
    ∀ s : ConsumerState,
      s.commits = s.metrics.processed / c.toNat →
      (consumeLoop c s inputs).commits = (consumeLoop c s inputs).metrics.processed / c.toNat := by
  induction inputs with
  | nil => intro s hs; simpa [consumeLoop] using hs
  | cons a rest ih =>
      intro s hs
      obtain ⟨t, r⟩ := a
      rw [consumeLoop]
      apply ih
      cases r with
      | timeout => simpa [consumeStep] using hs
      | pollError => simpa [consumeStep] using hs
      | message d =>
          cases d with
          | none => simpa [consumeStep] using hs
          | some o =>
              rw [consumeStep_commits_valid c hc, consumeStep_processed]
              simp only [isValidMsg, if_true]
              have hmod : (((s.metrics.processed + 1 : Nat)) : Int) % c = 0 ↔
                  c.toNat ∣ (s.metrics.processed + 1) := by
                have hc' : ((c.toNat : Int)) = c := Int.toNat_of_nonneg hc.le
                rw [← hc']
                norm_cast
                exact Nat.dvd_iff_mod_eq_zero.symm
              rw [Nat.succ_div, hs]
              simp only [hmod]

theorem consumeLoop_commits_le0 (c : Int) (hc : c ≤ 0) (inputs : List (ℚ × PollOutcome)) :
    ∀ s : ConsumerState, (consumeLoop c s inputs).commits = s.commits := by
  induction inputs with
  | nil => intro s; simp [consumeLoop]
  | cons a rest ih =>
      intro s
      obtain ⟨t, r⟩ := a
      rw [consumeLoop, ih, consumeStep_commits_le0 c hc]

/-! ## Claim C2 -/

/-- C2, counterexample. The claim states that a consumer with
`commit_every = 3` processing exactly 7 valid records then stopping
issues 3 periodic synchronous commits plus 1 final commit, 4 synchronous
commit calls in total. On the code (`tracker.py` lines 75-76 and 94-98)
the periodic commit fires when `processed % commit_every == 0`, i.e.
after records 3 and 6 only: the run issues 2 periodic commits plus the
final one, 3 synchronous commit calls, not 4, while `processed` is
indeed 7. -/
theorem C2_counterexample :
    (consumeRun 3 sevenValidTrace).metrics.processed = 7 ∧
    (consumeRun 3 sevenValidTrace).commits ≠ 4 := by
  constructor <;> decide

/-- C2, amended: a consumer run with `commit_every = 3` that processes
exactly 7 valid records and then stops issues exactly 2 periodic
synchronous commits (the first after record 3, the second after
record 6, none from record 7) plus 1 final commit, for 3 synchronous
commit calls in total, and `processed` is 7 at the end. -/
theorem C2_seven_records_commits :
    (consumeRun 3 sevenValidTrace).metrics.processed = 7 ∧
    (consumeLoop 3 initialConsumerState sevenValidTrace).commits = 2 ∧
    (consumeRun 3 sevenValidTrace).commits = 3 ∧
    (consumeLoop 3 initialConsumerState (sevenValidTrace.take 2)).commits = 0 ∧
    (consumeLoop 3 initialConsumerState (sevenValidTrace.take 3)).commits = 1 ∧
    (consumeLoop 3 initialConsumerState (sevenValidTrace.take 5)).commits = 1 ∧
    (consumeLoop 3 initialConsumerState (sevenValidTrace.take 6)).commits = 2 := by
  refine ⟨?_, ?_, ?_, ?_, ?_, ?_, ?_⟩ <;> decide

/-! ## Claim C3 -/

/-- C3: for every consumer run with `commit_every > 0` over any finite
poll trace, the number of synchronous commit calls equals
`⌊processed / commit_every⌋ + 1` (the final shutdown commit), where
`processed` is the number of successfully decoded records in the trace;
moreover one periodic commit is issued at a processing step exactly when
the incremented `processed` counter is a multiple of `commit_every`,
and the final commit is issued unconditionally. -/
theorem C3_commit_invariant (c : Int) (hc : 0 < c) (inputs : List (ℚ × PollOutcome)) :
    (consumeRun c inputs).commits = validCount inputs / c.toNat + 1 ∧
    (consumeRun c inputs).metrics.processed = validCount inputs ∧
    (∀ (s : ConsumerState) (t : ℚ) (o : JObj),
      (consumeStep c t s (.message (some o))).commits =
        s.commits + if ((s.metrics.processed + 1 : Nat) : Int) % c = 0 then 1 else 0) := by
  refine ⟨?_, ?_, fun s t o => consumeStep_commits_valid c hc t s o⟩
  · have h := consumeLoop_commits_inv c hc inputs initialConsumerState (by simp [initialConsumerState])
    have hp := consumeLoop_processed c inputs initialConsumerState
    simp only [consumeRun]
    rw [h, hp]
    simp [initialConsumerState]
  · have hp := consumeLoop_processed c inputs initialConsumerState
    simp only [consumeRun]
    rw [hp]
    simp [initialConsumerState]

/-- C3, witness: `commit_every = 2` over five valid records gives
`5 / 2 + 1 = 3` synchronous commit calls. -/
theorem C3_commit_invariant_witness :
    (consumeRun 2 (List.replicate 5 validRecord)).commits
      = validCount (List.replicate 5 validRecord) / (2 : Int).toNat + 1 :=
  (C3_commit_invariant 2 (by norm_num) (List.replicate 5 validRecord)).1

/-! ## Claim C10 -/

/-- C10: for every consumer run with `commit_every ≤ 0`, the guard
`args.commit_every > 0` of `tracker.py` line 75 never lets a periodic
commit fire, whatever the trace; the only synchronous commit call of the
whole run is the single final one in the `finally` block. -/
theorem C10_no_periodic_commits (c : Int) (hc : c ≤ 0) (inputs : List (ℚ × PollOutcome)) :
    (consumeLoop c initialConsumerState inputs).commits = 0 ∧
    (consumeRun c inputs).commits = 1 := by
  have h := consumeLoop_commits_le0 c hc inputs initialConsumerState
  constructor
  · simpa [initialConsumerState] using h
  · simp only [consumeRun]
    rw [h]
    simp [initialConsumerState]

/-- C10, witness: `commit_every = 0` over four valid records commits
exactly once. -/
theorem C10_no_periodic_commits_witness :
    (consumeRun 0 (List.replicate 4 validRecord)).commits = 1 :=
  (C10_no_periodic_commits 0 (by norm_num) (List.replicate 4 validRecord)).2

/-! ## Claim C6 -/

/-- C6: for every successfully decoded record whose `event_time_ms`
field is absent or fails the code's `isinstance(event_time_ms, int)`
type check (`tracker.py` lines 63-66), processing increments `processed`
by one and leaves `latency_total_ms` unchanged; by the shape of the
step function, latency is accumulated only in the complementary case,
i.e. when the field is present and well-typed. (Python's
`isinstance(·, int)` also accepts booleans, since `bool` subclasses
`int`; `hasWellTypedEventTime` is exactly the code's check.) -/
theorem C6_latency_frame (c : Int) (t : ℚ) (s : ConsumerState) (o : JObj)
    (h : hasWellTypedEventTime o = false) :
    (consumeStep c t s (.message (some o))).metrics.latency_total_ms
        = s.metrics.latency_total_ms ∧
    (consumeStep c t s (.message (some o))).metrics.processed
        = s.metrics.processed + 1 := by
  rcases hj : jget o "event_time_ms" with _ | v
  · constructor <;> (simp only [consumeStep, hj]; split <;> simp)
  · have hp : isPyInt v = false := by
      simpa [hasWellTypedEventTime, hj] using h
    constructor <;>
      (simp only [consumeStep, hj, hp, Bool.false_eq_true, if_false]; split <;> simp)

/-- C6, witness: a record whose `event_time_ms` is the string `"late"`
leaves `latency_total_ms` at zero while `processed` becomes 1. -/
theorem C6_latency_frame_witness :
    (consumeStep 100 1000 initialConsumerState
        (.message (some [("event_time_ms", JValue.jstr "late")]))).metrics.latency_total_ms
      = initialConsumerState.metrics.latency_total_ms ∧
    (consumeStep 100 1000 initialConsumerState
        (.message (some [("event_time_ms", JValue.jstr "late")]))).metrics.processed
      = initialConsumerState.metrics.processed + 1 :=
  C6_latency_frame 100 1000 initialConsumerState
    [("event_time_ms", JValue.jstr "late")] (by decide)

/-! ## Producer lemmas -/

theorem prodStep_metrics_no_deliveries (cfg : ProdConfig) (s : ProdState) (e : IterEnv)
    (h : e.deliveries = []) : (prodStep cfg s e).metrics = s.metrics := by
  cases ho : e.outcome <;>
    (simp only [prodStep, ho, h, applyDeliveries]; try split) <;> rfl

/-! ## Claim C7 -/

/-- C7: the counters `sent_ok` and `sent_error` are monotone under the
delivery callback and are touched only by it — a loop iteration that
fires no callback leaves the metrics structure unchanged, whatever the
produce outcome (the send call itself never increments them). On a
successful delivery the callback increments `sent_ok` exactly once,
leaves `sent_error` alone, and adds `(now - started_at) * 1000` to
`ack_latency_total_ms`, a non-negative amount whenever the callback runs
no earlier than the submission; on a failed delivery it increments
`sent_error`, leaves `sent_ok` and `ack_latency_total_ms` alone reading
from the same structure, and triggers no retry: callbacks never create
events nor append to the submission log, they only shrink the in-flight
queue. -/
theorem C7_delivery_callback_counters (m : ProducerMetrics) (started_at now : ℚ)
    (emsg : String) (cfg : ProdConfig) (s : ProdState) (e : IterEnv) :
    ((delivery_report m none started_at now).sent_ok = m.sent_ok + 1 ∧
      (delivery_report m none started_at now).sent_error = m.sent_error ∧
      (delivery_report m none started_at now).ack_latency_total_ms
        = m.ack_latency_total_ms + (now - started_at) * 1000) ∧
    (started_at ≤ now →
      m.ack_latency_total_ms ≤ (delivery_report m none started_at now).ack_latency_total_ms) ∧
    ((delivery_report m (some emsg) started_at now).sent_error = m.sent_error + 1 ∧
      (delivery_report m (some emsg) started_at now).sent_ok = m.sent_ok ∧
      (delivery_report m (some emsg) started_at now).ack_latency_total_ms
        = m.ack_latency_total_ms) ∧
    (∀ err : Option String,
      m.sent_ok ≤ (delivery_report m err started_at now).sent_ok ∧
      m.sent_error ≤ (delivery_report m err started_at now).sent_error) ∧
    (e.deliveries = [] → (prodStep cfg s e).metrics = s.metrics) ∧
    (∀ ds : List Bool,
      (applyDeliveries s ds).events_created = s.events_created ∧
      (applyDeliveries s ds).submit_log = s.submit_log ∧
      (applyDeliveries s ds).in_flight.length ≤ s.in_flight.length) := by
  refine ⟨⟨rfl, rfl, rfl⟩, ?_, ⟨rfl, rfl, rfl⟩, ?_, ?_, ?_⟩
  · intro hle
    simp only [delivery_report]
    have : 0 ≤ (now - started_at) * 1000 := by
      have := sub_nonneg.mpr hle
      positivity
    linarith
  · intro err
    cases err <;> simp [delivery_report]
  · exact prodStep_metrics_no_deliveries cfg s e
  · intro ds
    have h := applyDeliveries_frame ds s
    exact ⟨h.2.2.2.1, h.2.2.2.2.1, h.2.2.2.2.2⟩

/-- C7, witness at concrete inputs: a successful delivery with
submission at 1 and acknowledgment at 2 takes `sent_ok` from 0 to 1 and
accumulates a non-negative acknowledgment latency. -/
theorem C7_delivery_callback_counters_witness :
    (delivery_report { sent_ok := 0, sent_error := 0, ack_latency_total_ms := 0 }
        none 1 2).sent_ok = 0 + 1 ∧
    ({ sent_ok := 0, sent_error := 0, ack_latency_total_ms := 0 } :
        ProducerMetrics).ack_latency_total_ms ≤
      (delivery_report { sent_ok := 0, sent_error := 0, ack_latency_total_ms := 0 }
        none 1 2).ack_latency_total_ms ∧
    (prodStep { events_per_second := 1 } (prodInit 0) { outcome := .accepted }).metrics
      = (prodInit 0).metrics := by
  have h := C7_delivery_callback_counters
    { sent_ok := 0, sent_error := 0, ack_latency_total_ms := 0 } 1 2 "broker timed out"
    { events_per_second := 1 } (prodInit 0) { outcome := .accepted }
  exact ⟨h.1.1, h.2.1 (by norm_num), h.2.2.2.2.1 rfl⟩

/-! ## Claim C4 -/

/-- C4: the pacer. `next_send_time` is initialized to the run's start
time. On an accepted send the deadline is advanced by exactly
`1 / events_per_second`; if the resulting `sleep_for = next_send_time -
now` is positive the loop sleeps exactly that long (the clock lands on
the advanced deadline), otherwise the deadline has already passed and it
is reset to the current clock instead, with no sleep and no catch-up
burst. On a `BufferError` iteration the deadline is not advanced and the
event is not counted. -/
theorem C4_pacer (cfg : ProdConfig) (s : ProdState) (e : IterEnv) (t : ℚ)
    (_hr : 0 < cfg.events_per_second) :
    (prodInit t).next_send_time = t ∧
    (e.outcome = .accepted →
      (0 < s.next_send_time + 1 / cfg.events_per_second - s.time →
        (prodStep cfg s e).next_send_time
            = s.next_send_time + 1 / cfg.events_per_second ∧
        (prodStep cfg s e).time = s.next_send_time + 1 / cfg.events_per_second) ∧
      (s.next_send_time + 1 / cfg.events_per_second - s.time ≤ 0 →
        (prodStep cfg s e).next_send_time = s.time ∧
        (prodStep cfg s e).time = s.time)) ∧
    (e.outcome = .bufferFull →
      (prodStep cfg s e).next_send_time = s.next_send_time ∧
      (prodStep cfg s e).produced = s.produced) := by
  refine ⟨rfl, ?_, ?_⟩
  · intro ho
    have hfr := applyDeliveries_frame e.deliveries
      { s with events_created := s.events_created + 1,
               produced := s.produced + 1,
               in_flight := s.in_flight ++ [(s.events_created, s.time)],
               submit_log := s.submit_log ++ [(s.events_created, s.time)] }
    constructor
    · intro hpos
      simp only [prodStep, ho]
      rw [if_pos]
      · constructor
        · simp [hfr.2.1]
        · simp [hfr.1, hfr.2.1]
      · simp only [hfr.1, hfr.2.1]
        linarith
    · intro hneg
      simp only [prodStep, ho]
      rw [if_neg]
      · simp [hfr.1, hfr.2.1]
      · simp only [hfr.1, hfr.2.1]
        linarith
  · intro ho
    have hfr := applyDeliveries_frame e.deliveries
      { s with events_created := s.events_created + 1 }
    simp only [prodStep, ho]
    exact ⟨hfr.2.1, hfr.2.2.1⟩

/-- C4, witness: from the initial state of a run started at 0 with rate
1, an accepted send advances the deadline to 1 and sleeps until 1. -/
theorem C4_pacer_witness :
    (prodInit 7).next_send_time = 7 ∧
    (prodStep { events_per_second := 1 } (prodInit 0)
        { outcome := .accepted }).next_send_time
      = (prodInit 0).next_send_time + 1 / ({ events_per_second := 1 } :
          ProdConfig).events_per_second := by
  have h7 := C4_pacer { events_per_second := 1 } (prodInit 0) { outcome := .accepted } 7
    (by norm_num)
  exact ⟨h7.1, ((h7.2.1 rfl).1 (by norm_num [prodInit])).1⟩

/-! ## Claim C1 -/

/-- C1, counterexample. The claim states that on `BufferError` the same
event is retried on the next loop iteration, not re-encoded, and no
event is skipped. In the code (`producer.py` lines 150-165) the
`except BufferError` handler runs `producer.poll(0.1)` and `continue`,
and the next iteration begins with a fresh `create_order()` call: in the
scenario where the buffer reports full on produce attempt 4 of 5 and
frees afterwards, six events are created but the fourth created event
(index 3) is never submitted — the retry iteration submits the freshly
created event 4 instead. The submission count still reaches
`max_events = 5` and all five accepted sends are acknowledged
(`sent_ok = 5`), but the rejected event itself is skipped. -/
theorem C1_counterexample :
    bufferScenarioRun.produced = 5 ∧
    bufferScenarioRun.events_created = 6 ∧
    bufferScenarioRun.submit_log.map Prod.fst = [0, 1, 2, 4, 5] ∧
    3 ∉ bufferScenarioRun.submit_log.map Prod.fst ∧
    bufferScenarioRun.metrics.sent_ok = 5 := by
  refine ⟨?_, ?_, ?_, ?_, ?_⟩ <;>
    norm_num [bufferScenarioRun, prodMain, prodRun, prodStep, applyDeliveries, prodInit,
      prodFinish, delivery_report, bufferScenarioCfg, bufferScenarioScript, acceptedQuiet,
      List.replicate]

/-- C1, amended: when the produce call raises `BufferError`, the event
is not counted as attempted (`produced` is unchanged), nothing is
appended to the submission log, and the pacer deadline is not advanced;
the loop performs the short blocking poll (the clock advances by its
duration, callbacks may fire) and retries sending on the next iteration
— but with a freshly generated, freshly encoded event: the rejected
event is discarded (one extra `create_order` call per rejection). The
count of accepted submissions is unaffected by rejections, so in the
buffer-full scenario (full on attempt 4 of 5, freed on retry) the run
still ends with `sent_ok = 5` and no failures once all callbacks
resolve. -/
theorem C1_buffer_full_retry (cfg : ProdConfig) (s : ProdState) (e : IterEnv)
    (h : e.outcome = .bufferFull) :
    (prodStep cfg s e).produced = s.produced ∧
    (prodStep cfg s e).submit_log = s.submit_log ∧
    (prodStep cfg s e).next_send_time = s.next_send_time ∧
    (prodStep cfg s e).events_created = s.events_created + 1 ∧
    (prodStep cfg s e).time = s.time + e.poll_wait ∧
    bufferScenarioRun.metrics.sent_ok = 5 ∧
    bufferScenarioRun.metrics.sent_error = 0 ∧
    bufferScenarioRun.produced = 5 := by
  have hfr := applyDeliveries_frame e.deliveries
    { s with events_created := s.events_created + 1 }
  refine ⟨?_, ?_, ?_, ?_, ?_, ?_, ?_, ?_⟩
  · simp only [prodStep, h]
    exact hfr.2.2.1
  · simp only [prodStep, h]
    exact hfr.2.2.2.2.1
  · simp only [prodStep, h]
    exact hfr.2.1
  · simp only [prodStep, h]
    exact hfr.2.2.2.1
  · simp only [prodStep, h]
    rw [hfr.1]
  all_goals
    norm_num [bufferScenarioRun, prodMain, prodRun, prodStep, applyDeliveries, prodInit,
      prodFinish, delivery_report, bufferScenarioCfg, bufferScenarioScript, acceptedQuiet,
      List.replicate]

/-- C1, witness: a concrete `BufferError` iteration leaves `produced`
and the pacer deadline untouched while consuming one fresh event. -/
theorem C1_buffer_full_retry_witness :
    (prodStep bufferScenarioCfg (prodInit 0)
        { outcome := .bufferFull, poll_wait := 1 / 10 }).produced = (prodInit 0).produced ∧
    (prodStep bufferScenarioCfg (prodInit 0)
        { outcome := .bufferFull, poll_wait := 1 / 10 }).events_created
      = (prodInit 0).events_created + 1 := by
  have h := C1_buffer_full_retry bufferScenarioCfg (prodInit 0)
    { outcome := .bufferFull, poll_wait := 1 / 10 } rfl
  exact ⟨h.1, h.2.2.2.1⟩

/-! ## Claim C9 -/

/-- C9: producer startup. For every configured `events_per_second ≤ 0`
(both producer variants), `main` raises the configuration `ValueError`
before the broker client is constructed — the startup result carries no
client and the process exit status is non-zero; for every rate `> 0`
the check passes and the client is created. -/
theorem C9_startup_rate_check (r : ℚ) (b : String) :
    (r ≤ 0 →
      producerStartup r b
          = Except.error "--events-per-second must be greater than 0" ∧
      producerInvalidStartup r b
          = Except.error "--events-per-second must be greater than 0" ∧
      startupExitCode (producerStartup r b) ≠ 0 ∧
      startupExitCode (producerInvalidStartup r b) ≠ 0 ∧
      (∀ c : BrokerClient, producerStartup r b ≠ Except.ok c) ∧
      (∀ c : BrokerClient, producerInvalidStartup r b ≠ Except.ok c)) ∧
    (0 < r →
      producerStartup r b = Except.ok { bootstrap_servers := b } ∧
      producerInvalidStartup r b = Except.ok { bootstrap_servers := b } ∧
      startupExitCode (producerStartup r b) = 0) := by
  constructor
  · intro h
    simp [producerStartup, producerInvalidStartup, startupExitCode, h]
  · intro h
    simp [producerStartup, producerInvalidStartup, startupExitCode, not_le.mpr h]

/-- C9, witness: rate `-1` is rejected with a non-zero exit and no
client; rate `10` passes startup. -/
theorem C9_startup_rate_check_witness :
    startupExitCode (producerStartup (-1) "localhost:9092,localhost:9094") ≠ 0 ∧
    producerStartup 10 "localhost:9092,localhost:9094"
      = Except.ok { bootstrap_servers := "localhost:9092,localhost:9094" } := by
  have h1 := C9_startup_rate_check (-1) "localhost:9092,localhost:9094"
  have h2 := C9_startup_rate_check 10 "localhost:9092,localhost:9094"
  exact ⟨(h1.1 (by norm_num)).2.2.1, (h2.2 (by norm_num)).1⟩

/-! ## Claim C8 -/

/-- C8: each of the five corruption strategies, selected
deterministically (mode passed directly, the random pick unused),
produces a record that is missing exactly the documented field(s) or
carries the documented non-positive value in that field — the other of
the two fields keeps its original value — and is tagged with an
`invalid_mode` equal to the selected strategy. -/
theorem C8_invalid_mode_coverage (d : OrderDraws) (rp : String) :
    (jget (create_invalid_order "missing_unit_price" rp d) "unit_price" = none ∧
      jget (create_invalid_order "missing_unit_price" rp d) "quantity"
        = some (.jint d.quantity) ∧
      jget (create_invalid_order "missing_unit_price" rp d) "invalid_mode"
        = some (.jstr "missing_unit_price")) ∧
    (jget (create_invalid_order "missing_quantity" rp d) "quantity" = none ∧
      jget (create_invalid_order "missing_quantity" rp d) "unit_price"
        = some (.jnum d.unit_price) ∧
      jget (create_invalid_order "missing_quantity" rp d) "invalid_mode"
        = some (.jstr "missing_quantity")) ∧
    (jget (create_invalid_order "missing_both" rp d) "unit_price" = none ∧
      jget (create_invalid_order "missing_both" rp d) "quantity" = none ∧
      jget (create_invalid_order "missing_both" rp d) "invalid_mode"
        = some (.jstr "missing_both")) ∧
    (jget (create_invalid_order "non_positive_unit_price" rp d) "unit_price"
        = some (.jnum 0) ∧
      jget (create_invalid_order "non_positive_unit_price" rp d) "quantity"
        = some (.jint d.quantity) ∧
      jget (create_invalid_order "non_positive_unit_price" rp d) "invalid_mode"
        = some (.jstr "non_positive_unit_price")) ∧
    (jget (create_invalid_order "non_positive_quantity" rp d) "quantity"
        = some (.jint 0) ∧
      jget (create_invalid_order "non_positive_quantity" rp d) "unit_price"
        = some (.jnum d.unit_price) ∧
      jget (create_invalid_order "non_positive_quantity" rp d) "invalid_mode"
        = some (.jstr "non_positive_quantity")) := by
  refine ⟨⟨?_, ?_, ?_⟩, ⟨?_, ?_, ?_⟩, ⟨?_, ?_, ?_⟩, ⟨?_, ?_, ?_⟩, ⟨?_, ?_, ?_⟩⟩ <;>
    simp [create_invalid_order, create_order, popKey, setKey, jget]

/-! ## Steady paced run (claim C5) -/

theorem prodRun_nil (cfg : ProdConfig) (s : ProdState) : prodRun cfg s [] = s := rfl

theorem prodRun_cons (cfg : ProdConfig) (s : ProdState) (e : IterEnv) (es : List IterEnv) :
    prodRun cfg s (e :: es) =
      if 0 < cfg.duration_seconds ∧ (cfg.duration_seconds : ℚ) ≤ s.time - cfg.start then s
      else if 0 < cfg.max_events ∧ cfg.max_events ≤ (s.produced : Int) then s
      else prodRun cfg (prodStep cfg s e) es := rfl

theorem pacedState_zero (t0 r : ℚ) : pacedState t0 r 0 = prodInit t0 := by
  simp [pacedState, prodInit]

theorem prodStep_paced (r t0 : ℚ) (hr : 0 < r) (cfg : ProdConfig)
    (hcfg : cfg.events_per_second = r) (n : Nat) :
    prodStep cfg (pacedState t0 r n) acceptedQuiet = pacedState t0 r (n + 1) := by
  have hne : r ≠ 0 := ne_of_gt hr
  have hpos : (0 : ℚ) < t0 + (n : ℚ) / r + 1 / r - (t0 + (n : ℚ) / r) := by
    have h1 : (0 : ℚ) < 1 / r := by positivity
    linarith
  simp only [prodStep, acceptedQuiet, applyDeliveries, pacedState, hcfg]
  rw [if_pos hpos]
  have ht : t0 + (n : ℚ) / r + (t0 + (n : ℚ) / r + 1 / r - (t0 + (n : ℚ) / r))
      = t0 + ((n + 1 : Nat) : ℚ) / r := by
    push_cast
    field_simp
    ring
  have hnst : t0 + (n : ℚ) / r + 1 / r = t0 + ((n + 1 : Nat) : ℚ) / r := by
    push_cast
    field_simp
    ring
  rw [ht, hnst]
  simp [List.range_succ]

theorem prodRun_paced (r t0 : ℚ) (hr : 0 < r) (N : Nat) (es : List IterEnv) :
    ∀ (m n : Nat), n + m = N →
      prodRun (steadyRunCfg r t0 N) (pacedState t0 r n)
          (List.replicate m acceptedQuiet ++ es)
        = prodRun (steadyRunCfg r t0 N) (pacedState t0 r N) es := by
  intro m
  induction m with
  | zero =>
      intro n hn
      have hnN : n = N := by omega
      subst hnN
      rfl
  | succ k ih =>
      intro n hn
      have hn' : n < N := by omega
      rw [List.replicate_succ, List.cons_append, prodRun_cons]
      rw [if_neg (by simp [steadyRunCfg])]
      rw [if_neg (by simp only [steadyRunCfg, pacedState]; omega)]
      rw [prodStep_paced r t0 hr _ (by simp [steadyRunCfg]) n]
      exact ih (n + 1) (by omega)

theorem applyDeliveries_all_success : ∀ (fl : List (Nat × ℚ)) (s : ProdState),
    s.in_flight = fl →
    (applyDeliveries s (List.replicate fl.length true)).metrics.sent_ok
        = s.metrics.sent_ok + fl.length ∧
    (applyDeliveries s (List.replicate fl.length true)).metrics.sent_error
        = s.metrics.sent_error := by
  intro fl
  induction fl with
  | nil => intro s h; simp [applyDeliveries]
  | cons p fl ih =>
      intro s h
      obtain ⟨idx, started⟩ := p
      rw [List.length_cons, List.replicate_succ]
      simp only [applyDeliveries, h, if_true]
      have hrec := ih
        { s with in_flight := fl,
                 metrics := delivery_report s.metrics none started s.time } rfl
      refine ⟨?_, ?_⟩
      · rw [hrec.1]
        simp only [delivery_report]
        omega
      · rw [hrec.2]
        simp only [delivery_report]

theorem prodFinish_all_success (cfg : ProdConfig) (s : ProdState) (w : ℚ) (n : Nat)
    (hn : s.in_flight.length = n) :
    (prodFinish cfg s (List.replicate n true) w).1.metrics.sent_ok
        = s.metrics.sent_ok + n ∧
    (prodFinish cfg s (List.replicate n true) w).1.metrics.sent_error
        = s.metrics.sent_error ∧
    (prodFinish cfg s (List.replicate n true) w).1.submit_log = s.submit_log ∧
    (prodFinish cfg s (List.replicate n true) w).2
        = max (s.time + w - cfg.start) (1 / 1000) := by
  subst hn
  have h := applyDeliveries_all_success s.in_flight { s with time := s.time + w } rfl
  have hfr := applyDeliveries_frame (List.replicate s.in_flight.length true)
    { s with time := s.time + w }
  exact ⟨h.1, h.2, hfr.2.2.2.2.1, by rw [prodFinish, hfr.1]⟩

/-! ## Claim C5 -/

/-- C5, counterexample. The claim states that a backpressure-free run of
`N` events at rate `r` lasts about `(N-1)/r`, in particular 1.8 s for
rate 5 and `max_events` 10. In the idealized-time model (sleeps exact,
everything else instantaneous — every tolerance source is zero) the code
takes exactly 2.0 s, not 1.8 s: after the 10th accepted send the loop
still advances the deadline and sleeps one full pacing interval (0.2 s)
before observing `produced >= max_events` at the loop head
(`producer.py` lines 147, 168-173, 189). The submission times are
`0, 0.2, ..., 1.8`: `(N-1)/r` is when the last send is issued, not the
measured elapsed time, and the 0.2 s gap equals one whole inter-event
period, not a small tolerance. `sent_ok = 10` and `sent_error = 0` do
hold. -/
theorem C5_counterexample :
    (steadyRun 5 0 10).2 = 2 ∧
    (steadyRun 5 0 10).1.metrics.sent_ok = 10 ∧
    (steadyRun 5 0 10).1.metrics.sent_error = 0 ∧
    (steadyRun 5 0 10).1.submit_log.map Prod.snd
      = [0, 1/5, 2/5, 3/5, 4/5, 1, 6/5, 7/5, 8/5, 9/5] ∧
    (2 : ℚ) ≠ 9/5 := by
  refine ⟨?_, ?_, ?_, ?_, by norm_num⟩ <;>
    norm_num [steadyRun, steadyRunCfg, prodMain, prodRun, prodStep, applyDeliveries,
      prodInit, prodFinish, delivery_report, acceptedQuiet, List.replicate]

/-- C5, amended: for every target rate `r > 0` and every
backpressure-free run of `N ≥ 1` events in the idealized-time model
(with `N/r` above the 0.001 s floor of the summary computation), the
elapsed wall-clock time of the run is exactly `N/r` — one pacing
interval more than the claimed `(N-1)/r`, which is instead the time at
which the last event is submitted (event `k` is submitted at `t0 + k/r`)
— and with all deliveries succeeding `sent_ok = N` and
`sent_error = 0`. For rate 5 and `max_events` 10 the elapsed time is
2.0 s while the last send is issued at 1.8 s. -/
theorem C5_steady_rate_elapsed (r t0 : ℚ) (N : Nat) (hr : 0 < r) (hN : 1 ≤ N)
    (hfloor : 1 / 1000 ≤ (N : ℚ) / r) :
    (steadyRun r t0 N).2 = (N : ℚ) / r ∧
    (steadyRun r t0 N).1.metrics.sent_ok = N ∧
    (steadyRun r t0 N).1.metrics.sent_error = 0 ∧
    (steadyRun r t0 N).1.submit_log
      = (List.range N).map (fun k : Nat => (k, t0 + (k : ℚ) / r)) := by
  have hrun : prodRun (steadyRunCfg r t0 N) (prodInit t0)
      (List.replicate (N + 1) acceptedQuiet) = pacedState t0 r N := by
    rw [← pacedState_zero t0 r, List.replicate_succ']
    rw [prodRun_paced r t0 hr N [acceptedQuiet] N 0 (by omega)]
    rw [prodRun_cons]
    rw [if_neg (by simp [steadyRunCfg])]
    rw [if_pos (by simp only [steadyRunCfg, pacedState]; omega)]
  have hfl : (pacedState t0 r N).in_flight.length = N := by simp [pacedState]
  have hfin := prodFinish_all_success (steadyRunCfg r t0 N) (pacedState t0 r N) 0 N hfl
  have hst : (steadyRunCfg r t0 N).start = t0 := rfl
  have hmain : steadyRun r t0 N
      = prodFinish (steadyRunCfg r t0 N) (pacedState t0 r N) (List.replicate N true) 0 := by
    rw [steadyRun, prodMain, hst, hrun]
  rw [hmain]
  refine ⟨?_, ?_, ?_, ?_⟩
  · rw [hfin.2.2.2]
    simp only [pacedState, steadyRunCfg, add_zero]
    rw [show t0 + (N : ℚ) / r - t0 = (N : ℚ) / r by ring]
    exact max_eq_left hfloor
  · rw [hfin.1]
    simp [pacedState]
  · rw [hfin.2.1]
    simp [pacedState]
  · rw [hfin.2.2.1]
    simp [pacedState]

/-- C5, witness for the amended statement: one event at rate 1 from
start 0 gives elapsed exactly `1/1` second. -/
theorem C5_steady_rate_elapsed_witness :
    (steadyRun 1 0 1).2 = ((1 : Nat) : ℚ) / 1 ∧
    (steadyRun 1 0 1).1.metrics.sent_ok = 1 := by
  have h := C5_steady_rate_elapsed 1 0 1 (by norm_num) (by norm_num) (by norm_num)
  exact ⟨h.1, h.2.1⟩
